import Mathlib

/-!
Verification of the UK ONS MCP server (TypeScript sources) against its
natural-language specification.  The embedding below translates the pure
content of `src/api/ons-client.ts`, `src/services/dataset-service.ts` and
`src/index.ts` into Lean: network fetches become explicit oracle arguments,
thrown JavaScript errors become `Except` values, and JavaScript records
(`Record<string, string>`) become insertion-ordered association lists.
-/

namespace ONS

/-- A dimension declared on a dataset (entry of `ONSDataset.dimensions`
in `ons-client.ts`). -/
structure ONSDimension where
  id : String
  name : String
  label : String
deriving DecidableEq

/-- The `ONSDataset` interface of `ons-client.ts` (fields relevant to the
behaviour of the client; link objects are omitted).  `dimensions` is optional
exactly as in the TypeScript interface. -/
structure ONSDataset where
  id : String
  title : String
  description : String
  state : String
  type : String
  uri : String
  dimensions : Option (List ONSDimension)
deriving DecidableEq

/-- The `ONSDatasetList` interface of `ons-client.ts`. -/
structure ONSDatasetList where
  count : Nat
  items : List ONSDataset
  limit : Nat
  offset : Nat
  total_count : Nat
deriving DecidableEq

/-- The `ONSObservation` interface: a record of dimension name to chosen
value, plus the scalar measurement. -/
structure ONSObservation where
  dimensions : List (String × String)
  observation : String
deriving DecidableEq

/-- The `ONSObservationResponse` interface (link/metadata payloads omitted). -/
structure ONSObservationResponse where
  observations : List ONSObservation
  total_observations : Nat
deriving DecidableEq

/-- `pat` is a leading segment of `s`, over character lists. -/
def charsHasPre : List Char → List Char → Bool
  | [], _ => true
  | _ :: _, [] => false
  | a :: as, b :: bs => a == b && charsHasPre as bs

/-- `pat` occurs contiguously somewhere in `s`, over character lists:
the semantics of JavaScript `String.prototype.includes`. -/
def charsHasSub : List Char → List Char → Bool
  | pat, [] => pat.isEmpty
  | pat, b :: bs => charsHasPre pat (b :: bs) || charsHasSub pat bs

/-- JavaScript `haystack.includes(pat)`. -/
def strIncludes (haystack pat : String) : Bool :=
  charsHasSub pat.data haystack.data

/-- JavaScript `s.toLowerCase()`, modelled characterwise. -/
def strToLower (s : String) : String :=
  ⟨s.data.map Char.toLower⟩

/-- JavaScript `a || b` on an optional string `a`: the fallback is used when
`a` is absent or empty (falsy). -/
def jsOrStr : Option String → String → String
  | some s, fallback => if s == "" then fallback else s
  | none, fallback => fallback

/-- `ONSApiClient.listDatasets`: `GET /datasets?limit&offset`.  The upstream
catalog is modelled as the full list of datasets the API would page through;
the endpoint returns the window selected by `offset` and `limit`. -/
def listDatasets (catalog : List ONSDataset) (limit offset : Nat) : ONSDatasetList :=
  { count := ((catalog.drop offset).take limit).length
    items := (catalog.drop offset).take limit
    limit := limit
    offset := offset
    total_count := catalog.length }

/-- The filter predicate inside `ONSApiClient.searchDatasets`:
case-insensitive substring match of the search term against title,
description and id. -/
def datasetMatches (searchTerm : String) (dataset : ONSDataset) : Bool :=
  strIncludes (strToLower dataset.title) searchTerm ||
  strIncludes (strToLower dataset.description) searchTerm ||
  strIncludes (strToLower dataset.id) searchTerm

/-- `ONSApiClient.searchDatasets`: fetches the first 100 datasets unfiltered,
lowercases the query, filters by `datasetMatches`, truncates to `limit`, and
reports `count` and `total_count` as the truncated length with `offset := 0`. -/
def searchDatasets (catalog : List ONSDataset) (query : String) (limit : Nat) : ONSDatasetList :=
  let allDatasets := listDatasets catalog 100 0
  let searchTerm := strToLower query
  let filteredItems := (allDatasets.items.filter (datasetMatches searchTerm)).take limit
  { count := filteredItems.length
    items := filteredItems
    limit := limit
    offset := 0
    total_count := filteredItems.length }

/-- JavaScript `Array.prototype.join('&')`. -/
def joinAmp : List String → String
  | [] => ""
  | [s] => s
  | s :: t :: rest => s ++ "&" ++ joinAmp (t :: rest)

/-- The URL built by `ONSApiClient.getObservations`: the versioned
observations path, `?`, and the dimension entries serialized as `key=value`
pairs joined with `&`, with no URL escaping. -/
def getObservationsUrl (datasetId edition version : String)
    (dimensions : List (String × String)) : String :=
  let dimensionParams := joinAmp (dimensions.map (fun kv => kv.1 ++ "=" ++ kv.2))
  "/datasets/" ++ datasetId ++ "/editions/" ++ edition ++ "/versions/" ++ version ++
    "/observations?" ++ dimensionParams

/-- The part of an axios error response inspected by the interceptor:
`error.response.status` and `error.response.data?.message` (the latter is
absent when the body has no `message` field). -/
structure AxiosErrorResponse where
  status : Nat
  dataMessage : Option String
deriving DecidableEq

/-- An axios error as seen by the response interceptor: `error.response` is
absent on transport-level failures, and `error.message` always exists. -/
structure AxiosError where
  response : Option AxiosErrorResponse
  message : String
deriving DecidableEq

/-- The taxonomy of failures produced by the response interceptor in the
`ONSApiClient` constructor; each carries the thrown `Error` message. -/
inductive ONSFailure where
  | notFound (msg : String)
  | badRequest (msg : String)
  | rateLimited (msg : String)
  | serverError (msg : String)
  | httpError (status : Nat) (msg : String)
  | networkError (msg : String)
deriving DecidableEq

/-- The response interceptor installed in the `ONSApiClient` constructor:
with a response present, `message` is `error.response.data?.message ||
error.message` and the status is dispatched (the `switch` is sequential
equality testing); with no response, a network error is raised. -/
def interceptError (e : AxiosError) : ONSFailure :=
  match e.response with
  | some r =>
    let message := jsOrStr r.dataMessage e.message
    if r.status == 404 then .notFound ("ONS API: Resource not found - " ++ message)
    else if r.status == 400 then .badRequest ("ONS API: Bad request - " ++ message)
    else if r.status == 429 then .rateLimited ("ONS API: Rate limit exceeded - " ++ message)
    else if r.status == 500 then .serverError ("ONS API: Server error - " ++ message)
    else .httpError r.status ("ONS API: HTTP " ++ toString r.status ++ " - " ++ message)
  | none => .networkError ("ONS API: Network error - " ++ e.message)

/-- The dimension-filter construction of `ONSDatasetService.getLatestData`:
explicit `geography` and `timePeriod` are added when truthy (present and
non-empty); when the resulting record is empty, the heuristic adds a `time`
wildcard if the dataset declares a `time` dimension and the UK-wide
geography default if it declares a `geography` dimension. -/
def buildLatestDimensions (dataset : ONSDataset)
    (geography timePeriod : Option String) : List (String × String) :=
  let dims0 : List (String × String) := []
  let dims1 :=
    match geography with
    | some g => if g == "" then dims0 else dims0 ++ [("geography", g)]
    | none => dims0
  let dims2 :=
    match timePeriod with
    | some t => if t == "" then dims1 else dims1 ++ [("time", t)]
    | none => dims1
  if dims2.length == 0 then
    let dims3 :=
      if (dataset.dimensions.getD []).any (fun d => d.id == "time") then
        dims2 ++ [("time", "*")]
      else dims2
    let dims4 :=
      if (dataset.dimensions.getD []).any (fun d => d.id == "geography") then
        dims3 ++ [("geography", "K02000001")]
      else dims3
    dims4
  else dims2

/-- The composite payload returned by `ONSDatasetService.getLatestData`
(the `filters_applied` record is flattened into two fields; the `metadata`
link payload is omitted). -/
structure LatestDataResult where
  dataset_id : String
  dataset_title : String
  dataset_description : String
  filters_geography : Option String
  filters_time_period : Option String
  dimensions_used : List (String × String)
  total_observations : Nat
  observations : List ONSObservation
deriving DecidableEq

/-- `ONSDatasetService.getLatestData`: fetch the dataset, build the
dimension filter, fetch observations with it, and assemble the payload; any
failure in the chain is wrapped with dataset-identifying context.  The two
network calls are passed as oracles. -/
def getLatestData (datasetId : String) (geography timePeriod : Option String)
    (fetchDataset : Except String ONSDataset)
    (fetchObservations : List (String × String) → Except String ONSObservationResponse) :
    Except String LatestDataResult :=
  let attempt : Except String LatestDataResult := do
    let dataset ← fetchDataset
    let dimensions := buildLatestDimensions dataset geography timePeriod
    let observations ← fetchObservations dimensions
    pure { dataset_id := datasetId
           dataset_title := dataset.title
           dataset_description := dataset.description
           filters_geography := geography
           filters_time_period := timePeriod
           dimensions_used := dimensions
           total_observations := observations.total_observations
           observations := observations.observations }
  match attempt with
  | .ok r => .ok r
  | .error e => .error ("Failed to get latest data for " ++ datasetId ++ ": " ++ e)

/-- Lexicographic order on character lists: the model of the string
comparator `timeA.localeCompare(timeB)` used to sort observations. -/
def charListLe : List Char → List Char → Bool
  | [], _ => true
  | _ :: _, [] => false
  | a :: as, b :: bs => if a = b then charListLe as bs else decide (a < b)

/-- Lexical string ordering. -/
def strLeB (s t : String) : Bool :=
  charListLe s.data t.data

/-- `a.dimensions.time || ''`: the time-dimension value of an observation,
defaulting to the empty string. -/
def obsTime (o : ONSObservation) : String :=
  (o.dimensions.lookup "time").getD ""

/-- The sort comparator of `ONSDatasetService.getTimeSeriesData`. -/
def obsTimeLe (a b : ONSObservation) : Bool :=
  strLeB (obsTime a) (obsTime b)

/-- The payload returned by `ONSDatasetService.getTimeSeriesData`. -/
structure TimeSeriesResult where
  dataset_id : String
  geography : String
  time_series : List ONSObservation
  total_observations : Nat
deriving DecidableEq

/-- `ONSDatasetService.getTimeSeriesData`: fetch all time periods for one
geography and sort the observations by their time value. -/
def getTimeSeriesData (datasetId geography : String)
    (fetchObservations : List (String × String) → ONSObservationResponse) : TimeSeriesResult :=
  let dims := [("geography", geography), ("time", "*")]
  let observations := fetchObservations dims
  let sortedObservations := observations.observations.mergeSort obsTimeLe
  { dataset_id := datasetId
    geography := geography
    time_series := sortedObservations
    total_observations := observations.total_observations }

/-- The raw payload of `GET /datasets/{id}/dimensions/{dimId}/options`;
only the optional `items` array is consumed (`options.items || []`). -/
structure OptionsPayload where
  items : Option (List String)
deriving DecidableEq

/-- One entry of the `dimensions` array built by
`ONSDatasetService.getDatasetDimensions`. -/
structure DimensionDetail where
  id : String
  name : String
  label : String
  options : List String
  error : Option String
deriving DecidableEq

/-- The payload returned by `ONSDatasetService.getDatasetDimensions`. -/
structure DimensionsResult where
  dataset_id : String
  dataset_title : String
  dimensions : List DimensionDetail
deriving DecidableEq

/-- The per-dimension body inside `getDatasetDimensions`: a successful
options fetch yields the items (defaulted to empty), a failed one is caught
and degrades the entry to empty options with the error message attached. -/
def dimensionDetailFor (fetchOptions : String → Except String OptionsPayload)
    (dim : ONSDimension) : DimensionDetail :=
  match fetchOptions dim.id with
  | .ok options =>
    { id := dim.id, name := dim.name, label := dim.label
      options := options.items.getD [], error := none }
  | .error e =>
    { id := dim.id, name := dim.name, label := dim.label
      options := [], error := some e }

/-- `ONSDatasetService.getDatasetDimensions`: fetch the dataset, then fetch
each declared dimension's options (each fetch individually guarded); a
failed dataset fetch propagates, per-dimension failures do not. -/
def getDatasetDimensions (datasetId : String)
    (fetchDataset : Except String ONSDataset)
    (fetchOptions : String → Except String OptionsPayload) :
    Except String DimensionsResult :=
  match fetchDataset with
  | .error e => .error e
  | .ok dataset =>
    let dimensions := dataset.dimensions.getD []
    let dimensionDetails := dimensions.map (dimensionDetailFor fetchOptions)
    .ok { dataset_id := datasetId
          dataset_title := dataset.title
          dimensions := dimensionDetails }

/-- The MCP error codes used by the tool-call handler in `index.ts`. -/
inductive McpCode where
  | invalidParams
  | methodNotFound
deriving DecidableEq

/-- A JavaScript error as discriminated by the tool-call handler: a zod
validation error, an `McpError`, or any other `Error`. -/
inductive JsError where
  | zodError (message : String)
  | mcpError (code : McpCode) (message : String)
  | plainError (message : String)
deriving DecidableEq

/-- The five tool names with `case` branches in the `CallToolRequestSchema`
handler of `index.ts`. -/
def knownToolNames : List String :=
  ["list_datasets", "get_dataset", "search_datasets", "get_observation", "get_latest_data"]

/-- The `switch` body of the tool-call handler: a known tool parses its
arguments against its schema and runs its service call (both passed as
oracles keyed by tool name); the `default` branch throws an `McpError` with
code `MethodNotFound`. -/
def toolSwitch {α : Type} (name : String) (parseArgs : String → Except JsError α)
    (runTool : String → α → Except JsError String) : Except JsError String :=
  if knownToolNames.contains name then
    match parseArgs name with
    | .error e => .error e
    | .ok a => runTool name a
  else
    .error (.mcpError .methodNotFound ("Unknown tool: " ++ name))

/-- The full tool-call handler: the `switch` wrapped in `try`/`catch`, where
a caught `ZodError` is converted to an `McpError` with code `InvalidParams`
and every other error is rethrown unchanged. -/
def callToolHandler {α : Type} (name : String) (parseArgs : String → Except JsError α)
    (runTool : String → α → Except JsError String) : Except JsError String :=
  match toolSwitch name parseArgs runTool with
  | .error (.zodError m) => .error (.mcpError .invalidParams ("Invalid parameters: " ++ m))
  | other => other

/-- A concrete dataset declaring both a `time` and a `geography` dimension,
used as a test input. -/
def sampleDataset : ONSDataset :=
  { id := "cpih01"
    title := "Consumer Prices Index including owner occupiers housing costs (CPIH)"
    description := "CPIH is the most comprehensive measure of UK consumer price inflation."
    state := "published"
    type := "filterable"
    uri := "/datasets/cpih01"
    dimensions := some
      [{ id := "time", name := "time", label := "Time" },
       { id := "geography", name := "geography", label := "Geography" }] }

/-- A second concrete dataset, matching searches for "gdp". -/
def gdpDataset : ONSDataset :=
  { id := "regional-gdp-by-year"
    title := "Regional GDP by Year"
    description := "Annual economic activity within UK regions."
    state := "published"
    type := "filterable"
    uri := "/datasets/regional-gdp-by-year"
    dimensions := some [{ id := "time", name := "time", label := "Time" }] }

/-- A small concrete upstream catalog. -/
def sampleCatalog : List ONSDataset :=
  [sampleDataset, gdpDataset]

/-- A concrete observation response used as an oracle answer. -/
def sampleObsResponse : ONSObservationResponse :=
  { observations :=
      [{ dimensions := [("geography", "K02000001"), ("time", "2023")], observation := "131.5" }]
    total_observations := 1 }

/-- A concrete axios error carrying a 404 response with an upstream
message. -/
def axErr404 : AxiosError :=
  { response := some { status := 404, dataMessage := some "dataset not found" }
    message := "Request failed with status code 404" }

/-- A concrete axios transport failure with no response. -/
def axErrNet : AxiosError :=
  { response := none, message := "socket hang up" }

/-- A pattern is a leading segment of itself followed by anything. -/
theorem charsHasPre_self_append : ∀ (p rest : List Char), charsHasPre p (p ++ rest) = true := by
  intro p
  induction p with
  | nil => intro rest; cases rest <;> rfl
  | cons a as ih =>
    intro rest
    simp [charsHasPre, ih rest]

/-- A pattern occurs in itself followed by anything. -/
theorem charsHasSub_self_append : ∀ (p rest : List Char), charsHasSub p (p ++ rest) = true := by
  intro p rest
  cases p with
  | nil =>
    cases rest with
    | nil => rfl
    | cons b bs => simp [charsHasSub, charsHasPre]
  | cons a as =>
    show charsHasSub (a :: as) (a :: (as ++ rest)) = true
    simp [charsHasSub, charsHasPre_self_append as rest, charsHasPre]

/-- Occurrence of a pattern is preserved by prepending a character. -/
theorem charsHasSub_cons (c : Char) (p l : List Char)
    (h : charsHasSub p l = true) : charsHasSub p (c :: l) = true := by
  simp [charsHasSub, h]

/-- Occurrence of a pattern is preserved by prepending any list. -/
theorem charsHasSub_append_left : ∀ (pre p l : List Char),
    charsHasSub p l = true → charsHasSub p (pre ++ l) = true := by
  intro pre
  induction pre with
  | nil => intro p l h; simpa using h
  | cons c cs ih =>
    intro p l h
    exact charsHasSub_cons c p (cs ++ l) (ih p l h)

/-- A pattern occurs in any list that contains it contiguously. -/
theorem charsHasSub_middle (pre p rest : List Char) :
    charsHasSub p (pre ++ (p ++ rest)) = true :=
  charsHasSub_append_left pre p (p ++ rest) (charsHasSub_self_append p rest)

/-- String-level form: a substring placed in the middle is found. -/
theorem strIncludes_middle (x p y : String) : strIncludes (x ++ (p ++ y)) p = true := by
  show charsHasSub p.data (x ++ (p ++ y)).data = true
  rw [String.data_append, String.data_append]
  exact charsHasSub_middle x.data p.data y.data

/-- String-level form: a suffix is found. -/
theorem strIncludes_right (x p : String) : strIncludes (x ++ p) p = true := by
  have h := strIncludes_middle x p ""
  have hp : p ++ "" = p := by
    apply String.ext
    rw [String.data_append]
    simp
  rwa [hp] at h

/-- Every member of a joined list of strings sits between two strings in
the join. -/
theorem joinAmp_mem_split : ∀ (parts : List String) (s : String), s ∈ parts →
    ∃ x y, joinAmp parts = x ++ (s ++ y) := by
  intro parts
  induction parts with
  | nil => intro s h; cases h
  | cons hd tl ih =>
    intro s hmem
    rcases List.mem_cons.mp hmem with heq | htl
    · subst heq
      cases tl with
      | nil =>
        refine ⟨"", "", ?_⟩
        have : s ++ "" = s := by
          apply String.ext
          rw [String.data_append]
          simp
        rw [this]
        rfl
      | cons t rest =>
        refine ⟨"", "&" ++ joinAmp (t :: rest), ?_⟩
        show s ++ "&" ++ joinAmp (t :: rest) = "" ++ (s ++ ("&" ++ joinAmp (t :: rest)))
        rw [String.append_assoc]
        rfl
    · rcases ih s htl with ⟨x, y, hx⟩
      cases tl with
      | nil => cases htl
      | cons t rest =>
        refine ⟨(hd ++ "&") ++ x, y, ?_⟩
        show hd ++ "&" ++ joinAmp (t :: rest) = hd ++ "&" ++ x ++ (s ++ y)
        rw [hx]
        simp [String.append_assoc]

/-- Lexicographic order on character lists is total. -/
theorem charListLe_total : ∀ (xs ys : List Char), (charListLe xs ys || charListLe ys xs) = true := by
  intro xs
  induction xs with
  | nil => intro ys; cases ys <;> simp [charListLe]
  | cons a as ih =>
    intro ys
    cases ys with
    | nil => simp [charListLe]
    | cons b bs =>
      by_cases hab : a = b
      · subst hab
        simpa [charListLe] using ih bs
      · rcases lt_or_gt_of_ne hab with h | h
        · simp [charListLe, hab, h]
        · simp [charListLe, hab, Ne.symm hab, h, not_lt_of_gt h]

/-- Lexicographic order on character lists is transitive. -/
theorem charListLe_trans : ∀ (xs ys zs : List Char),
    charListLe xs ys = true → charListLe ys zs = true → charListLe xs zs = true := by
  intro xs
  induction xs with
  | nil => intro ys zs h1 h2; cases zs <;> simp [charListLe] at *
  | cons a as ih =>
    intro ys zs h1 h2
    cases ys with
    | nil => simp [charListLe] at h1
    | cons b bs =>
      cases zs with
      | nil => simp [charListLe] at h2
      | cons c cs =>
        by_cases hab : a = b <;> by_cases hbc : b = c
        · subst hab; subst hbc
          simp [charListLe] at h1 h2 ⊢
          exact ih bs cs h1 h2
        · subst hab
          simp [charListLe, hbc] at h2
          simp [charListLe, hbc, h2]
        · subst hbc
          simp [charListLe, hab] at h1
          simp [charListLe, hab, h1]
        · simp [charListLe, hab] at h1
          simp [charListLe, hbc] at h2
          have hac : a < c := lt_trans h1 h2
          simp [charListLe, ne_of_lt hac, hac]

/-- The observation time comparator is total. -/
theorem obsTimeLe_total (a b : ONSObservation) : (obsTimeLe a b || obsTimeLe b a) = true :=
  charListLe_total (obsTime a).data (obsTime b).data

/-- The observation time comparator is transitive. -/
theorem obsTimeLe_trans (a b c : ONSObservation)
    (h1 : obsTimeLe a b = true) (h2 : obsTimeLe b c = true) : obsTimeLe a c = true :=
  charListLe_trans (obsTime a).data (obsTime b).data (obsTime c).data h1 h2

/-- C1: for every query string and limit, `searchDatasets` returns at most
`limit` items, every returned item matches the query case-insensitively on
title, description or id, and every returned item comes from the first 100
datasets of the upstream listing, so a matching dataset beyond those 100 is
never returned. -/
theorem C1_searchDatasets_bounded_matching_pool
    (catalog : List ONSDataset) (query : String) (limit : Nat) :
    (searchDatasets catalog query limit).items.length ≤ limit ∧
    (∀ d ∈ (searchDatasets catalog query limit).items,
      datasetMatches (strToLower query) d = true) ∧
    (∀ d ∈ (searchDatasets catalog query limit).items, d ∈ catalog.take 100) := by
  have hitems : (searchDatasets catalog query limit).items =
      ((catalog.take 100).filter (datasetMatches (strToLower query))).take limit := by
    simp [searchDatasets, listDatasets]
  refine ⟨?_, ?_, ?_⟩
  · rw [hitems, List.length_take]
    exact min_le_left _ _
  · intro d hd
    rw [hitems] at hd
    have hf := List.take_subset _ _ hd
    exact (List.mem_filter.mp hf).2
  · intro d hd
    rw [hitems] at hd
    have hf := List.take_subset _ _ hd
    exact (List.mem_filter.mp hf).1

/-- C1 witness: the theorem applied to a concrete catalog, the query "GDP"
and limit 5, at the concrete matching dataset. -/
theorem C1_witness :
    (searchDatasets sampleCatalog "GDP" 5).items.length ≤ 5 ∧
    datasetMatches (strToLower "GDP") gdpDataset = true ∧
    gdpDataset ∈ sampleCatalog.take 100 :=
  ⟨(C1_searchDatasets_bounded_matching_pool sampleCatalog "GDP" 5).1,
   (C1_searchDatasets_bounded_matching_pool sampleCatalog "GDP" 5).2.1 gdpDataset (by decide),
   (C1_searchDatasets_bounded_matching_pool sampleCatalog "GDP" 5).2.2 gdpDataset (by decide)⟩

/-- C9: the dataset list returned by `searchDatasets` reports `count` and
`total_count` both equal to the number of items actually returned after
filtering and truncation, and `offset` always equal to 0, so `total_count`
never reflects the size of the full upstream catalog. -/
theorem C9_search_counts_reflect_filtered
    (catalog : List ONSDataset) (query : String) (limit : Nat) :
    (searchDatasets catalog query limit).count =
      (searchDatasets catalog query limit).items.length ∧
    (searchDatasets catalog query limit).total_count =
      (searchDatasets catalog query limit).items.length ∧
    (searchDatasets catalog query limit).offset = 0 :=
  ⟨rfl, rfl, rfl⟩

/-- C2: with neither geography nor time period supplied, the dimension
filter built by `getLatestData` contains the time wildcard exactly when the
dataset declares a dimension with id `time`, contains the UK-wide geography
default exactly when it declares a dimension with id `geography`, and
contains no other entries. -/
theorem C2_heuristic_default_filters (ds : ONSDataset) :
    ((("time", "*") ∈ buildLatestDimensions ds none none) ↔
      (ds.dimensions.getD []).any (fun d => d.id == "time") = true) ∧
    ((("geography", "K02000001") ∈ buildLatestDimensions ds none none) ↔
      (ds.dimensions.getD []).any (fun d => d.id == "geography") = true) ∧
    (∀ kv ∈ buildLatestDimensions ds none none,
      kv = ("time", "*") ∨ kv = ("geography", "K02000001")) := by
  have hred : buildLatestDimensions ds none none =
      (if (ds.dimensions.getD []).any (fun d => d.id == "time") then
        [(("time" : String), ("*" : String))] else []) ++
      (if (ds.dimensions.getD []).any (fun d => d.id == "geography") then
        [(("geography" : String), ("K02000001" : String))] else []) := by
    by_cases h1 : (ds.dimensions.getD []).any (fun d => d.id == "time") <;>
      by_cases h2 : (ds.dimensions.getD []).any (fun d => d.id == "geography") <;>
        simp [buildLatestDimensions, h1, h2]
  rw [hred]
  by_cases h1 : (ds.dimensions.getD []).any (fun d => d.id == "time") <;>
    by_cases h2 : (ds.dimensions.getD []).any (fun d => d.id == "geography") <;>
      simp [h1, h2]

/-- C2 witness: the theorem applied to a concrete dataset declaring both a
time and a geography dimension. -/
theorem C2_witness :
    ("time", "*") ∈ buildLatestDimensions sampleDataset none none ∧
    (("geography", "K02000001") = (("time" : String), ("*" : String)) ∨
      ("geography", "K02000001") = (("geography" : String), ("K02000001" : String))) :=
  ⟨(C2_heuristic_default_filters sampleDataset).1.mpr (by decide),
   (C2_heuristic_default_filters sampleDataset).2.2 ("geography", "K02000001") (by decide)⟩

/-- C3 (amended): when both geography and time period are supplied as
non-empty strings, the wildcard-default heuristic is not invoked: the
dimension filter sent to the observations fetch is exactly the two given
entries, and the result echoes exactly the two given values as the filters
applied. -/
theorem C3_explicit_filters_exact (datasetId : String) (ds : ONSDataset) (g t : String)
    (resp : ONSObservationResponse)
    (fetchObservations : List (String × String) → Except String ONSObservationResponse)
    (hg : (g == "") = false) (ht : (t == "") = false)
    (hobs : fetchObservations [("geography", g), ("time", t)] = .ok resp) :
    buildLatestDimensions ds (some g) (some t) = [("geography", g), ("time", t)] ∧
    getLatestData datasetId (some g) (some t) (.ok ds) fetchObservations =
      .ok { dataset_id := datasetId
            dataset_title := ds.title
            dataset_description := ds.description
            filters_geography := some g
            filters_time_period := some t
            dimensions_used := [("geography", g), ("time", t)]
            total_observations := resp.total_observations
            observations := resp.observations } := by
  have hdims : buildLatestDimensions ds (some g) (some t) =
      [("geography", g), ("time", t)] := by
    simp [buildLatestDimensions, hg, ht]
  refine ⟨hdims, ?_⟩
  simp [getLatestData, bind, Except.bind, Functor.map, Except.map, pure, Except.pure,
    hdims, hobs]

/-- C3 counterexample: both arguments explicitly supplied as empty strings
are treated as absent, so the heuristic fires and the filter is not the two
given entries. -/
theorem C3_counterexample :
    ("time", "*") ∈ buildLatestDimensions sampleDataset (some "") (some "") ∧
    buildLatestDimensions sampleDataset (some "") (some "") ≠
      [("geography", ""), ("time", "")] := by
  decide

/-- C3 witness: the amended theorem applied at concrete non-empty
arguments. -/
theorem C3_witness :
    getLatestData "cpih01" (some "K02000001") (some "2023") (.ok sampleDataset)
      (fun _ => .ok sampleObsResponse) =
    .ok { dataset_id := "cpih01"
          dataset_title := sampleDataset.title
          dataset_description := sampleDataset.description
          filters_geography := some "K02000001"
          filters_time_period := some "2023"
          dimensions_used := [("geography", "K02000001"), ("time", "2023")]
          total_observations := sampleObsResponse.total_observations
          observations := sampleObsResponse.observations } :=
  (C3_explicit_filters_exact "cpih01" sampleDataset "K02000001" "2023" sampleObsResponse
    (fun _ => .ok sampleObsResponse) (by decide) (by decide) rfl).2

/-- C10 (amended): when exactly one of geography or time period is supplied
as a non-empty string, no default is applied for the missing one: the
dimension filter is exactly the one supplied entry. -/
theorem C10_single_filter_no_default (ds : ONSDataset) (g t : String) :
    ((g == "") = false →
      buildLatestDimensions ds (some g) none = [("geography", g)]) ∧
    ((t == "") = false →
      buildLatestDimensions ds none (some t) = [("time", t)]) := by
  constructor
  · intro hg
    simp [buildLatestDimensions, hg]
  · intro ht
    simp [buildLatestDimensions, ht]

/-- C10 counterexample: a geography supplied as the empty string is treated
as absent, so the heuristic fires and the filter contains entries other
than the supplied one. -/
theorem C10_counterexample :
    ("time", "*") ∈ buildLatestDimensions sampleDataset (some "") none ∧
    buildLatestDimensions sampleDataset (some "") none ≠ [("geography", "")] := by
  decide

/-- C10 witness: the amended theorem applied at concrete non-empty
arguments. -/
theorem C10_witness :
    buildLatestDimensions sampleDataset (some "K02000001") none =
      [("geography", "K02000001")] ∧
    buildLatestDimensions sampleDataset none (some "2023") = [("time", "2023")] :=
  ⟨(C10_single_filter_no_default sampleDataset "K02000001" "2023").1 (by decide),
   (C10_single_filter_no_default sampleDataset "K02000001" "2023").2 (by decide)⟩

/-- C4: for every observation response, the time series returned by
`getTimeSeriesData` is non-decreasing under lexical string ordering of each
observation's time dimension value for all adjacent pairs. -/
theorem C4_time_series_sorted (datasetId geography : String)
    (fetchObservations : List (String × String) → ONSObservationResponse) :
    List.Chain' (fun a b => obsTimeLe a b = true)
      (getTimeSeriesData datasetId geography fetchObservations).time_series := by
  have hp := @List.sorted_mergeSort ONSObservation obsTimeLe
    (fun a b c => obsTimeLe_trans a b c) (fun a b => obsTimeLe_total a b)
    (fetchObservations [("geography", geography), ("time", "*")]).observations
  exact List.Pairwise.chain' hp

/-- C5: `getObservations` serializes the dimension mapping as key=value
pairs joined with ampersands and no URL escaping, appended after a question
mark to the versioned observations path: every entry appears verbatim in
the URL, and the example mapping yields a URL containing the unescaped
query `geography=K02000001&time=2023`. -/
theorem C5_observations_url_serialization (d e v : String)
    (dims : List (String × String)) :
    (∀ p ∈ dims, strIncludes (getObservationsUrl d e v dims) (p.1 ++ "=" ++ p.2) = true) ∧
    strIncludes (getObservationsUrl d e v [("geography", "K02000001"), ("time", "2023")])
      "geography=K02000001&time=2023" = true := by
  constructor
  · intro p hp
    have hmem : p.1 ++ "=" ++ p.2 ∈ dims.map (fun kv => kv.1 ++ "=" ++ kv.2) :=
      List.mem_map.mpr ⟨p, hp, rfl⟩
    rcases joinAmp_mem_split _ _ hmem with ⟨x, y, hx⟩
    have hurl : getObservationsUrl d e v dims =
        ("/datasets/" ++ d ++ "/editions/" ++ e ++ "/versions/" ++ v ++
          "/observations?" ++ x) ++ ((p.1 ++ "=" ++ p.2) ++ y) := by
      show "/datasets/" ++ d ++ "/editions/" ++ e ++ "/versions/" ++ v ++
        "/observations?" ++ joinAmp (dims.map (fun kv => kv.1 ++ "=" ++ kv.2)) = _
      rw [hx]
      simp only [String.append_assoc]
    rw [hurl]
    exact strIncludes_middle _ _ _
  · have hq : joinAmp ([(("geography" : String), ("K02000001" : String)),
        ("time", "2023")].map (fun kv => kv.1 ++ "=" ++ kv.2)) =
        "geography=K02000001&time=2023" := by decide
    have hurl : getObservationsUrl d e v [("geography", "K02000001"), ("time", "2023")] =
        ("/datasets/" ++ d ++ "/editions/" ++ e ++ "/versions/" ++ v ++
          "/observations?") ++ "geography=K02000001&time=2023" := by
      show "/datasets/" ++ d ++ "/editions/" ++ e ++ "/versions/" ++ v ++
        "/observations?" ++ joinAmp ([(("geography" : String), ("K02000001" : String)),
          ("time", "2023")].map (fun kv => kv.1 ++ "=" ++ kv.2)) = _
      rw [hq]
    rw [hurl]
    exact strIncludes_right _ _

/-- C5 witness: the theorem applied at concrete path segments and the
example dimension mapping. -/
theorem C5_witness :
    strIncludes (getObservationsUrl "cpih01" "time-series" "latest"
        [("geography", "K02000001"), ("time", "2023")])
      ((("geography" : String), ("K02000001" : String)).1 ++ "=" ++
        (("geography" : String), ("K02000001" : String)).2) = true ∧
    strIncludes (getObservationsUrl "cpih01" "time-series" "latest"
        [("geography", "K02000001"), ("time", "2023")])
      "geography=K02000001&time=2023" = true :=
  ⟨(C5_observations_url_serialization "cpih01" "time-series" "latest"
      [("geography", "K02000001"), ("time", "2023")]).1
    ("geography", "K02000001") (by decide),
   (C5_observations_url_serialization "cpih01" "time-series" "latest"
      [("geography", "K02000001"), ("time", "2023")]).2⟩

/-- C6: the response interceptor maps status 404 to a not-found failure,
400 to bad-request, 429 to rate-limited, 500 to upstream-server-error and
any other status to a generic HTTP failure carrying the status code, each
message containing the upstream message when present; a transport failure
with no response maps to a network-error failure carrying the transport
message. -/
theorem C6_error_classification (e : AxiosError) :
    (∀ r, e.response = some r →
      ((r.status = 404 → ∃ m, interceptError e = .notFound m ∧
          ∀ um, r.dataMessage = some um → (um == "") = false →
            strIncludes m um = true) ∧
       (r.status = 400 → ∃ m, interceptError e = .badRequest m ∧
          ∀ um, r.dataMessage = some um → (um == "") = false →
            strIncludes m um = true) ∧
       (r.status = 429 → ∃ m, interceptError e = .rateLimited m ∧
          ∀ um, r.dataMessage = some um → (um == "") = false →
            strIncludes m um = true) ∧
       (r.status = 500 → ∃ m, interceptError e = .serverError m ∧
          ∀ um, r.dataMessage = some um → (um == "") = false →
            strIncludes m um = true) ∧
       (r.status ≠ 404 → r.status ≠ 400 → r.status ≠ 429 → r.status ≠ 500 →
          ∃ m, interceptError e = .httpError r.status m ∧
            ∀ um, r.dataMessage = some um → (um == "") = false →
              strIncludes m um = true))) ∧
    (e.response = none →
      interceptError e = .networkError ("ONS API: Network error - " ++ e.message)) := by
  have hjs : ∀ (pre fallback um : String), (um == "") = false →
      strIncludes (pre ++ jsOrStr (some um) fallback) um = true := by
    intro pre fallback um h
    simp [jsOrStr, h]
    exact strIncludes_right pre um
  constructor
  · intro r hr
    refine ⟨?_, ?_, ?_, ?_, ?_⟩
    · intro hs
      refine ⟨"ONS API: Resource not found - " ++ jsOrStr r.dataMessage e.message, ?_, ?_⟩
      · simp [interceptError, hr, hs]
      · intro um hum hne
        rw [hum]
        exact hjs _ _ _ hne
    · intro hs
      refine ⟨"ONS API: Bad request - " ++ jsOrStr r.dataMessage e.message, ?_, ?_⟩
      · simp [interceptError, hr, hs]
      · intro um hum hne
        rw [hum]
        exact hjs _ _ _ hne
    · intro hs
      refine ⟨"ONS API: Rate limit exceeded - " ++ jsOrStr r.dataMessage e.message, ?_, ?_⟩
      · simp [interceptError, hr, hs]
      · intro um hum hne
        rw [hum]
        exact hjs _ _ _ hne
    · intro hs
      refine ⟨"ONS API: Server error - " ++ jsOrStr r.dataMessage e.message, ?_, ?_⟩
      · simp [interceptError, hr, hs]
      · intro um hum hne
        rw [hum]
        exact hjs _ _ _ hne
    · intro h404 h400 h429 h500
      refine ⟨"ONS API: HTTP " ++ toString r.status ++ " - " ++
        jsOrStr r.dataMessage e.message, ?_, ?_⟩
      · simp [interceptError, hr, h404, h400, h429, h500]
      · intro um hum hne
        rw [hum]
        exact hjs _ _ _ hne
  · intro hr
    simp [interceptError, hr]

/-- C6 witness: the theorem applied to a concrete 404 error carrying an
upstream message, and to a concrete transport failure. -/
theorem C6_witness :
    (∃ m, interceptError axErr404 = ONSFailure.notFound m ∧
      strIncludes m "dataset not found" = true) ∧
    interceptError axErrNet =
      .networkError ("ONS API: Network error - " ++ axErrNet.message) := by
  constructor
  · rcases ((C6_error_classification axErr404).1
      { status := 404, dataMessage := some "dataset not found" } rfl).1 rfl with
      ⟨m, hm, hc⟩
    exact ⟨m, hm, hc "dataset not found" rfl (by decide)⟩
  · exact (C6_error_classification axErrNet).2 rfl

/-- C7: given the dataset, `getDatasetDimensions` always succeeds with
exactly one entry per declared dimension, in order and carrying the
dimension's id, name and label; when the options fetch for a dimension
fails, that entry degrades to an empty options list with the error message
attached instead of failing the whole call. -/
theorem C7_dimensions_degrade_per_entry (datasetId : String) (ds : ONSDataset)
    (fetchOptions : String → Except String OptionsPayload) :
    ∃ r, getDatasetDimensions datasetId (.ok ds) fetchOptions = .ok r ∧
      r.dimensions.length = (ds.dimensions.getD []).length ∧
      ∀ (i : Nat) (dim : ONSDimension), (ds.dimensions.getD [])[i]? = some dim →
        ∃ (entry : DimensionDetail), r.dimensions[i]? = some entry ∧ entry.id = dim.id ∧
          entry.name = dim.name ∧ entry.label = dim.label ∧
          ∀ msg, fetchOptions dim.id = .error msg →
            entry.options = [] ∧ entry.error = some msg := by
  refine ⟨_, rfl, ?_, ?_⟩
  · exact List.length_map _ _
  · intro i dim hdim
    refine ⟨dimensionDetailFor fetchOptions dim, ?_, ?_, ?_, ?_, ?_⟩
    · show ((ds.dimensions.getD []).map (dimensionDetailFor fetchOptions))[i]? =
        some (dimensionDetailFor fetchOptions dim)
      rw [List.getElem?_map, hdim]
      rfl
    · cases h : fetchOptions dim.id <;> simp [dimensionDetailFor, h]
    · cases h : fetchOptions dim.id <;> simp [dimensionDetailFor, h]
    · cases h : fetchOptions dim.id <;> simp [dimensionDetailFor, h]
    · intro msg hmsg
      simp [dimensionDetailFor, hmsg]

/-- C7 witness: the theorem applied to a concrete dataset with an options
fetch that fails for every dimension. -/
theorem C7_witness :
    ∃ r, getDatasetDimensions "cpih01" (.ok sampleDataset)
        (fun _ => .error "ONS API: Network error - down") = .ok r ∧
      r.dimensions.length = (sampleDataset.dimensions.getD []).length ∧
      ∃ (entry : DimensionDetail), r.dimensions[0]? = some entry ∧ entry.options = [] ∧
        entry.error = some "ONS API: Network error - down" := by
  rcases C7_dimensions_degrade_per_entry "cpih01" sampleDataset
    (fun _ => .error "ONS API: Network error - down") with ⟨r, hr, hlen, hidx⟩
  rcases hidx 0 { id := "time", name := "time", label := "Time" } rfl with
    ⟨entry, he, hid, hname, hlabel, herr⟩
  rcases herr "ONS API: Network error - down" rfl with ⟨ho, he2⟩
  exact ⟨r, hr, hlen, entry, he, ho, he2⟩

/-- C8: the tool-call handler reports an invalid-parameters failure naming
the violation when argument validation fails, reports an
unrecognized-operation failure for an operation name outside the five known
tools, and passes every other failure through to the caller unmodified. -/
theorem C8_tool_adapter_errors (α : Type) (name : String)
    (parseArgs : String → Except JsError α)
    (runTool : String → α → Except JsError String) :
    (knownToolNames.contains name = false →
      callToolHandler name parseArgs runTool =
        .error (.mcpError .methodNotFound ("Unknown tool: " ++ name))) ∧
    (∀ m, knownToolNames.contains name = true →
      parseArgs name = .error (.zodError m) →
      callToolHandler name parseArgs runTool =
        .error (.mcpError .invalidParams ("Invalid parameters: " ++ m))) ∧
    (∀ a err, knownToolNames.contains name = true → parseArgs name = .ok a →
      runTool name a = .error err → (∀ m, err ≠ .zodError m) →
      callToolHandler name parseArgs runTool = .error err) := by
  refine ⟨?_, ?_, ?_⟩
  · intro h
    have hmem : ¬ name ∈ knownToolNames := by simpa using h
    simp [callToolHandler, toolSwitch, hmem]
  · intro m hk hp
    have hmem : name ∈ knownToolNames := by simpa using hk
    simp [callToolHandler, toolSwitch, hmem, hp]
  · intro a err hk hp hr hz
    have hmem : name ∈ knownToolNames := by simpa using hk
    cases err with
    | zodError m => exact absurd rfl (hz m)
    | mcpError c m => simp [callToolHandler, toolSwitch, hmem, hp, hr]
    | plainError m => simp [callToolHandler, toolSwitch, hmem, hp, hr]

/-- C8 witness: the theorem applied to an unknown tool name, to a known
tool with failing validation, and to a known tool whose service call fails
with an ordinary error. -/
theorem C8_witness :
    @callToolHandler Unit "bogus_tool" (fun _ => .ok ()) (fun _ _ => .ok "ok") =
      .error (.mcpError .methodNotFound ("Unknown tool: " ++ "bogus_tool")) ∧
    @callToolHandler Unit "get_dataset"
        (fun _ => .error (.zodError "Required")) (fun _ _ => .ok "ok") =
      .error (.mcpError .invalidParams ("Invalid parameters: " ++ "Required")) ∧
    @callToolHandler Unit "get_dataset" (fun _ => .ok ())
        (fun _ _ => .error (.plainError "ONS API: Network error - down")) =
      .error (.plainError "ONS API: Network error - down") :=
  ⟨(C8_tool_adapter_errors Unit "bogus_tool" (fun _ => .ok ())
      (fun _ _ => .ok "ok")).1 (by decide),
   (C8_tool_adapter_errors Unit "get_dataset" (fun _ => .error (.zodError "Required"))
      (fun _ _ => .ok "ok")).2.1 "Required" (by decide) rfl,
   (C8_tool_adapter_errors Unit "get_dataset" (fun _ => .ok ())
      (fun _ _ => .error (.plainError "ONS API: Network error - down"))).2.2 ()
      (.plainError "ONS API: Network error - down") (by decide) rfl rfl
      (fun _ h => JsError.noConfusion h)⟩

end ONS
